import Mathlib

/-!
Shallow embedding of `src/test-rules-api.py`, a one-shot smoke-test script:
it reads a bearer token from the environment (`DEV_BEARER`), issues one HTTP
GET, validates the JSON payload and prints a verification report, exiting 0
on success and 1 on any failure.

The embedding models:
  * JSON values (`Json`) together with the Python dynamic operations the
    script uses on them: truthiness, `dict.get`, subscripting (`d[k]`),
    `in` (substring / membership), `len`, iteration, slicing, and `str()`
    formatting as used in f-strings;
  * Python exceptions (`PyError`) raised by those operations, and the two
    `except` clauses of the script;
  * the transport layer as an input (`HttpResult`): either a
    `requests.exceptions.RequestException` (connection refused, timeout,
    DNS failure, ...), or a response carrying an HTTP status code and a
    body that either parses as JSON or does not
    (`response.json()` raises `requests.exceptions.JSONDecodeError`,
    a `RequestException` subclass in requests >= 2.27);
  * the whole run (`run`): environment and transport result in, printed
    lines, exit code and number of network calls out.
-/

/-- A JSON value as Python represents it (dict field order kept). -/
inductive Json where
  | null : Json
  | bool : Bool → Json
  | num : Int → Json
  | str : String → Json
  | arr : List Json → Json
  | obj : List (String × Json) → Json

/-- Single-quote character, used by Python `repr` of strings and by
`str(KeyError(...))`. -/
def pyQuote : String := String.singleton (Char.ofNat 39)

/-- Lookup of a key in a Python dict (keys are unique; first match). -/
def lookupField : List (String × Json) → String → Option Json
  | [], _ => none
  | (k, v) :: rest, key => if k == key then some v else lookupField rest key

/-- Python truthiness of a JSON value (`if not x`). -/
def Json.truthy : Json → Bool
  | .null => false
  | .bool b => b
  | .num n => n != 0
  | .str s => s != ""
  | .arr xs => !xs.isEmpty
  | .obj fs => !fs.isEmpty

/-- The Python exceptions the script can raise past the `try` body. -/
inductive PyError where
  | keyError (key : String)
  | typeError (msg : String)
  | attributeError (msg : String)

/-- `str(e)` for a caught exception: `str(KeyError(k))` is the repr of the
key, i.e. the key in single quotes. -/
def PyError.pyStr : PyError → String
  | .keyError k => pyQuote ++ k ++ pyQuote
  | .typeError m => m
  | .attributeError m => m

mutual
/-- Python `repr()` of a JSON value. -/
def Json.pyRepr : Json → String
  | .null => "None"
  | .bool true => "True"
  | .bool false => "False"
  | .num n => toString n
  | .str s => pyQuote ++ s ++ pyQuote
  | .arr xs => "[" ++ String.intercalate ", " (Json.pyReprList xs) ++ "]"
  | .obj fs => "\x7b" ++ String.intercalate ", " (Json.pyReprFields fs) ++ "\x7d"

def Json.pyReprList : List Json → List String
  | [] => []
  | x :: xs => Json.pyRepr x :: Json.pyReprList xs

def Json.pyReprFields : List (String × Json) → List String
  | [] => []
  | (k, v) :: fs =>
    (pyQuote ++ k ++ pyQuote ++ ": " ++ Json.pyRepr v) :: Json.pyReprFields fs
end

/-- Python `str()` of a JSON value, as an f-string applies it: identity on
strings, `repr` otherwise. -/
def Json.pyStr : Json → String
  | .str s => s
  | j => j.pyRepr

/-- Python `d.get(key, default)`; raises `AttributeError` when the receiver
is not a dict. -/
def Json.get (j : Json) (key : String) (default : Json) : Except PyError Json :=
  match j with
  | .obj fs => .ok ((lookupField fs key).getD default)
  | _ => .error (.attributeError ("object has no attribute " ++ pyQuote ++ "get" ++ pyQuote))

/-- Python `d[key]` with a string key: `KeyError` when the key is absent,
`TypeError` when the receiver is not a dict. -/
def Json.subscript (j : Json) (key : String) : Except PyError Json :=
  match j with
  | .obj fs =>
    match lookupField fs key with
    | some v => .ok v
    | none => .error (.keyError key)
  | _ => .error (.typeError "object is not subscriptable with a str key")

/-- Substring test on character lists: `needle` occurs as a prefix here. -/
def listIsPrefix : List Char → List Char → Bool
  | [], _ => true
  | _ :: _, [] => false
  | a :: as, b :: bs => a == b && listIsPrefix as bs

/-- Substring test on character lists: `needle` occurs contiguously. -/
def listContainsSub (needle : List Char) : List Char → Bool
  | [] => needle.isEmpty
  | c :: cs => listIsPrefix needle (c :: cs) || listContainsSub needle cs

/-- Python `needle in hay` for strings: contiguous substring. -/
def strContains (hay needle : String) : Bool :=
  listContainsSub needle.data hay.data

/-- Python `needle in hay` with a string needle: substring for strings,
element equality (a str never equals a non-str) for lists, key membership
for dicts, `TypeError` otherwise. -/
def pyIn (needle : String) (hay : Json) : Except PyError Bool :=
  match hay with
  | .str s => .ok (strContains s needle)
  | .arr xs => .ok (xs.any fun x => match x with | .str s => s == needle | _ => false)
  | .obj fs => .ok (lookupField fs needle).isSome
  | _ => .error (.typeError "argument is not iterable")

/-- Python iteration `for r in x`: list elements, dict keys, string
characters; `TypeError` otherwise. -/
def Json.toIter : Json → Except PyError (List Json)
  | .arr xs => .ok xs
  | .obj fs => .ok (fs.map fun p => Json.str p.1)
  | .str s => .ok (s.data.map fun c => Json.str (String.singleton c))
  | _ => .error (.typeError "object is not iterable")

/-- Python `len(x)`: `TypeError` when the receiver has no length. -/
def Json.pyLen : Json → Except PyError Nat
  | .arr xs => .ok xs.length
  | .obj fs => .ok fs.length
  | .str s => .ok s.length
  | _ => .error (.typeError "object has no len")

/-- Python `x[:5]` followed by iteration: lists and strings slice, a dict
raises `TypeError` (slices are unhashable). -/
def Json.sliceIter5 : Json → Except PyError (List Json)
  | .arr xs => .ok (xs.take 5)
  | .str s => .ok ((s.data.take 5).map fun c => Json.str (String.singleton c))
  | _ => .error (.typeError "unhashable type: slice")

/-- How the `try` body ends: a `sys.exit(code)` / normal fall-through
(`SystemExit` is not caught by `except Exception`), or a Python exception
that propagates to the `except` clauses. -/
inductive PyOutcome where
  | exit (code : Nat)
  | exc (e : PyError)

/-- The template marker the script searches for in rule expressions. -/
def tmplNeedle : String := "$\x7b"

/-- Line 37: the comprehension predicate
`'${' in r.get('expression', '')`. -/
def templateTest (r : Json) : Except PyError Bool :=
  (r.get "expression" (.str "")).bind fun e => pyIn tmplNeedle e

/-- Line 41: the comprehension predicate `not r.get('enabled')`. -/
def disabledTest (r : Json) : Except PyError Bool :=
  (r.get "enabled" .null).map fun v => !v.truthy

/-- A Python list comprehension `[r for r in rs if p r]`: elements kept in
order, the first raising element aborts the whole comprehension. -/
def filterE (p : Json → Except PyError Bool) : List Json → Except PyError (List Json)
  | [] => .ok []
  | r :: rs =>
    match p r with
    | .error e => .error e
    | .ok b =>
      match filterE p rs with
      | .error e => .error e
      | .ok rest => .ok (if b then r :: rest else rest)

/-- Lines 52-53: the warning loop body
`print(f"  - {r['name']} (enabled={r['enabled']})")`; returns the lines
printed before a raising element, and the exception if one was raised. -/
def warnLoop : List Json → List String × Option PyError
  | [] => ([], none)
  | r :: rs =>
    match r.subscript "name" with
    | .error e => ([], some e)
    | .ok nm =>
      match r.subscript "enabled" with
      | .error e => ([], some e)
      | .ok en =>
        let line := "  - " ++ nm.pyStr ++ " (enabled=" ++ en.pyStr ++ ")"
        let (ls, err) := warnLoop rs
        (line :: ls, err)

/-- Lines 57-61: the preview loop over `enumerate(rules[:5], 1)`; each rule
prints a name line and a type line; evaluation order inside the body is
`r.get('expression','')`, the `in` test, `r['name']`, `r['enabled']`,
`r.get('severity','N/A')`. -/
def previewLoop : Nat → List Json → List String × Option PyError
  | _, [] => ([], none)
  | i, r :: rs =>
    match r.get "expression" (.str "") with
    | .error e => ([], some e)
    | .ok expr =>
      match pyIn tmplNeedle expr with
      | .error e => ([], some e)
      | .ok isTemplate =>
        let ruleType := if isTemplate then "Template" else "Executable"
        match r.subscript "name" with
        | .error e => ([], some e)
        | .ok nm =>
          let nameLine := "  " ++ toString i ++ ". " ++ nm.pyStr
          match r.subscript "enabled" with
          | .error e => ([nameLine], some e)
          | .ok en =>
            match r.get "severity" (.str "N/A") with
            | .error e => ([nameLine], some e)
            | .ok sev =>
              let typeLine := "     Type: " ++ ruleType ++ " | Enabled: " ++ en.pyStr
                ++ " | Severity: " ++ sev.pyStr
              let (ls, err) := previewLoop (i + 1) rs
              (nameLine :: typeLine :: ls, err)

/-- Python `"=" * 60`. -/
def bannerLine : String := String.mk (List.replicate 60 '=')

/-- Lines 19-22: the banner printed before the request is attempted. -/
def preLines : List String := [bannerLine, "Rules Hub API Verification", bannerLine, ""]

/-- Line 10 diagnostic. -/
def configErrorLine : String := "ERROR: DEV_BEARER environment variable not set"

/-- Lines 63-72: the fixed closing block printed on full success. -/
def tailLines : List String :=
  ["", bannerLine, "✓ API Verification Complete!", bannerLine, "",
   "Frontend Status:",
   "  - ModernRulesHubFixed.tsx: Compiled successfully",
   "  - Page loads: HTTP 200 OK",
   "  - API filtering: enabled=true working correctly", ""]

/-- The fixed target URL. -/
def apiUrl : String := "http://localhost:3000/api/quality/rules?enabled=true"

/-- `str(e)` for the `requests.exceptions.HTTPError` raised by
`raise_for_status()` on a 4xx / 5xx status. -/
def httpErrorMsg (status : Nat) : String :=
  toString status
    ++ (if status < 500 then " Client Error for url: " else " Server Error for url: ")
    ++ apiUrl

/-- Line 78 (`except Exception as e: print(f"ERROR: {e}")`). -/
def exceptionLine (e : PyError) : String := "ERROR: " ++ e.pyStr

/-- Lines 29-72: everything after `data = response.json()` succeeded.
Returns the lines printed inside the `try` body and how the body ended. -/
def processData (data : Json) : List String × PyOutcome :=
  match data.get "success" .null with
  | .error e => ([], .exc e)
  | .ok successVal =>
    if !successVal.truthy then
      (["ERROR: API returned success=false"], .exit 1)
    else
      match data.subscript "data" with
      | .error e => ([], .exc e)
      | .ok d =>
        match (d.subscript "pagination").bind fun p => p.subscript "total" with
        | .error e => ([], .exc e)
        | .ok total =>
          match d.subscript "rules" with
          | .error e => ([], .exc e)
          | .ok rules =>
            match rules.toIter with
            | .error e => ([], .exc e)
            | .ok rlist =>
              match filterE templateTest rlist with
              | .error e => ([], .exc e)
              | .ok template_rules =>
                match filterE disabledTest rlist with
                | .error e => ([], .exc e)
                | .ok disabled_rules =>
                  let template_count := template_rules.length
                  let disabled_count := disabled_rules.length
                  let totalLine := "✓ Total enabled rules: " ++ total.pyStr
                  match rules.pyLen with
                  | .error e => ([totalLine], .exc e)
                  | .ok fetched =>
                    let stats := [totalLine,
                      "✓ Rules fetched: " ++ toString fetched,
                      "  Template rules: " ++ toString template_count,
                      "  Disabled rules: " ++ toString disabled_count ++ " (should be 0)",
                      ""]
                    let warnResult :=
                      if disabled_count > 0 then
                        let wl := warnLoop disabled_rules
                        ("WARNING: Found disabled rules in enabled=true response!" :: wl.1
                          ++ (if wl.2.isNone then [""] else []), wl.2)
                      else ([], none)
                    match warnResult.2 with
                    | some e => (stats ++ warnResult.1, .exc e)
                    | none =>
                      match rules.sliceIter5 with
                      | .error e => (stats ++ warnResult.1 ++ ["First 5 rules:"], .exc e)
                      | .ok preview =>
                        let pv := previewLoop 1 preview
                        match pv.2 with
                        | some e =>
                          (stats ++ warnResult.1 ++ ["First 5 rules:"] ++ pv.1, .exc e)
                        | none =>
                          (stats ++ warnResult.1 ++ ["First 5 rules:"] ++ pv.1 ++ tailLines,
                           .exit 0)

/-- Outcome of the single `requests.get` call, an input of the run: a
`RequestException` (connection refused, timeout, DNS failure, too many
redirects, ...), or a response with its final HTTP status code and a body
that either parses as JSON or raises on `response.json()`
(`requests.exceptions.JSONDecodeError` subclasses `RequestException` in
requests >= 2.27, so it is caught by the first `except` clause). -/
inductive HttpResult where
  | requestException (cause : String)
  | response (status : Nat) (body : Except String Json)

/-- Observable result of one run of the script. -/
structure RunResult where
  output : List String
  exitCode : Nat
  networkCalls : Nat

/-- The whole script, lines 8-79: `env` is `os.environ.get('DEV_BEARER')`,
`http` the outcome of the one `requests.get` that is issued when the
configuration gate passes.  `raise_for_status()` raises exactly on status
codes in [400, 600). -/
def run (env : Option String) (http : HttpResult) : RunResult :=
  match env with
  | none => ⟨[configErrorLine], 1, 0⟩
  | some token =>
    if token = "" then ⟨[configErrorLine], 1, 0⟩
    else
      match http with
      | .requestException cause =>
        ⟨preLines ++ ["ERROR: Failed to fetch rules: " ++ cause], 1, 1⟩
      | .response status body =>
        if 400 ≤ status ∧ status < 600 then
          ⟨preLines ++ ["ERROR: Failed to fetch rules: " ++ httpErrorMsg status], 1, 1⟩
        else
          match body with
          | .error cause =>
            ⟨preLines ++ ["ERROR: Failed to fetch rules: " ++ cause], 1, 1⟩
          | .ok data =>
            match processData data with
            | (lines, .exit c) => ⟨preLines ++ lines, c, 1⟩
            | (lines, .exc e) => ⟨preLines ++ lines ++ [exceptionLine e], 1, 1⟩

/-! Statement vocabulary: closed forms, phrased as the spec phrases them,
for what the script computes on well-formed payloads.  The refinement
theorems below connect `run` to these. -/

/-- The expression string of a rule record: its `expression` field when
that is a string, the empty string when the field is absent. -/
def ruleExpr : Json → String
  | .obj fs =>
    match lookupField fs "expression" with
    | some (.str s) => s
    | _ => ""
  | _ => ""

/-- Template classification: the expression contains the substring `${`. -/
def isTemplateRule (r : Json) : Bool := strContains (ruleExpr r) tmplNeedle

/-- The `enabled` value of a rule record (`None` when absent). -/
def ruleEnabled : Json → Json
  | .obj fs => (lookupField fs "enabled").getD .null
  | _ => .null

/-- Disabled classification: the `enabled` field is falsy (or absent). -/
def isDisabledRule (r : Json) : Bool := !(ruleEnabled r).truthy

/-- The `name` value of a rule record (`None` when absent). -/
def ruleName : Json → Json
  | .obj fs => (lookupField fs "name").getD .null
  | _ => .null

/-- The `severity` value of a rule record, falling back to `"N/A"`. -/
def ruleSeverity : Json → Json
  | .obj fs => (lookupField fs "severity").getD (.str "N/A")
  | _ => .str "N/A"

/-- The warning-block line for one disabled rule. -/
def warnLine (r : Json) : String :=
  "  - " ++ (ruleName r).pyStr ++ " (enabled=" ++ (ruleEnabled r).pyStr ++ ")"

/-- The preview type line for a rule, up to its severity suffix. -/
def previewTypePrefix (r : Json) : String :=
  "     Type: " ++ (if isTemplateRule r then "Template" else "Executable")
    ++ " | Enabled: " ++ (ruleEnabled r).pyStr ++ " | Severity: "

/-- The two preview lines per rule, numbering from `i`. -/
def previewLines : Nat → List Json → List String
  | _, [] => []
  | i, r :: rs =>
    ("  " ++ toString i ++ ". " ++ (ruleName r).pyStr)
      :: (previewTypePrefix r ++ (ruleSeverity r).pyStr)
      :: previewLines (i + 1) rs

/-- The four summary lines and the blank line after them. -/
def statsLines (total : Json) (rlist : List Json) : List String :=
  ["✓ Total enabled rules: " ++ total.pyStr,
   "✓ Rules fetched: " ++ toString rlist.length,
   "  Template rules: " ++ toString (rlist.filter isTemplateRule).length,
   "  Disabled rules: " ++ toString (rlist.filter isDisabledRule).length ++ " (should be 0)",
   ""]

/-- The warning block: present exactly when some rule is disabled. -/
def warnBlock (rlist : List Json) : List String :=
  if (rlist.filter isDisabledRule).length > 0 then
    "WARNING: Found disabled rules in enabled=true response!"
      :: (rlist.filter isDisabledRule).map warnLine ++ [""]
  else []

/-- The whole report printed inside the `try` body on a fully successful
run. -/
def expectedReport (total : Json) (rlist : List Json) : List String :=
  statsLines total rlist ++ warnBlock rlist ++ ["First 5 rules:"]
    ++ previewLines 1 (rlist.take 5) ++ tailLines

/-- A rule record on which the report code cannot raise: a dict with
`name` and `enabled` present, and `expression`, when present, a string. -/
def wellFormedRule : Json → Bool
  | .obj fs =>
    (lookupField fs "name").isSome && (lookupField fs "enabled").isSome &&
      (match lookupField fs "expression" with
       | some (.str _) => true
       | some _ => false
       | none => true)
  | _ => false

/-- Rule records whose `expression` field, when present, is a string (the
comprehension on line 37 cannot raise on such a record). -/
def wfExprRule : Json → Bool
  | .obj fs =>
    (match lookupField fs "expression" with
     | some (.str _) => true
     | some _ => false
     | none => true)
  | _ => false

theorem wfExpr_of_wellFormed (r : Json) (h : wellFormedRule r = true) :
    wfExprRule r = true := by
  cases r <;> simp_all [wellFormedRule, wfExprRule]

theorem templateTest_eq :
    ∀ r : Json, wfExprRule r = true → templateTest r = .ok (isTemplateRule r)
  | .obj fs, h => by
    simp only [templateTest, Json.get, Except.bind, isTemplateRule, ruleExpr]
    cases hex : lookupField fs "expression" with
    | none => simp [pyIn, Option.getD]
    | some e =>
      cases e with
      | str s => simp [pyIn, Option.getD]
      | null => simp [wfExprRule, hex] at h
      | bool b => simp [wfExprRule, hex] at h
      | num n => simp [wfExprRule, hex] at h
      | arr xs => simp [wfExprRule, hex] at h
      | obj gs => simp [wfExprRule, hex] at h
  | .null, h => by simp [wfExprRule] at h
  | .bool b, h => by simp [wfExprRule] at h
  | .num n, h => by simp [wfExprRule] at h
  | .str s, h => by simp [wfExprRule] at h
  | .arr xs, h => by simp [wfExprRule] at h

theorem disabledTest_eq (fs : List (String × Json)) :
    disabledTest (.obj fs) = .ok (isDisabledRule (.obj fs)) := rfl

theorem filterE_ok (pe : Json → Except PyError Bool) (p : Json → Bool) :
    ∀ l : List Json, (∀ r ∈ l, pe r = .ok (p r)) →
      filterE pe l = .ok (l.filter p)
  | [], _ => rfl
  | r :: rs, h => by
    have hr := h r (List.mem_cons_self r rs)
    have hrs := filterE_ok pe p rs fun x hx => h x (List.mem_cons_of_mem r hx)
    simp [filterE, hr, hrs, List.filter_cons]

theorem wellFormed_obj (r : Json) (h : wellFormedRule r = true) :
    ∃ fs, r = Json.obj fs := by
  cases r <;> simp_all [wellFormedRule]

theorem wellFormed_name_enabled (fs : List (String × Json))
    (h : wellFormedRule (.obj fs) = true) :
    (lookupField fs "name").isSome = true ∧
      (lookupField fs "enabled").isSome = true := by
  simp only [wellFormedRule, Bool.and_eq_true] at h
  exact ⟨h.1.1, h.1.2⟩

theorem warnLoop_ok : ∀ l : List Json, (∀ r ∈ l, wellFormedRule r = true) →
    warnLoop l = (l.map warnLine, none)
  | [], _ => rfl
  | r :: rs, h => by
    have hr := h r (List.mem_cons_self r rs)
    have ih := warnLoop_ok rs fun x hx => h x (List.mem_cons_of_mem r hx)
    obtain ⟨fs, rfl⟩ := wellFormed_obj r hr
    obtain ⟨hn, he⟩ := wellFormed_name_enabled fs hr
    obtain ⟨nm, hnm⟩ := Option.isSome_iff_exists.mp hn
    obtain ⟨en, hen⟩ := Option.isSome_iff_exists.mp he
    simp [warnLoop, Json.subscript, hnm, hen, ih, warnLine, ruleName, ruleEnabled]

theorem previewLoop_ok : ∀ (i : Nat) (l : List Json),
    (∀ r ∈ l, wellFormedRule r = true) →
    previewLoop i l = (previewLines i l, none)
  | _, [], _ => rfl
  | i, r :: rs, h => by
    have hr := h r (List.mem_cons_self r rs)
    have ih := previewLoop_ok (i + 1) rs fun x hx => h x (List.mem_cons_of_mem r hx)
    obtain ⟨fs, rfl⟩ := wellFormed_obj r hr
    obtain ⟨hn, he⟩ := wellFormed_name_enabled fs hr
    obtain ⟨nm, hnm⟩ := Option.isSome_iff_exists.mp hn
    obtain ⟨en, hen⟩ := Option.isSome_iff_exists.mp he
    have hexpr : wfExprRule (Json.obj fs) = true := wfExpr_of_wellFormed _ hr
    cases hex : lookupField fs "expression" with
    | none =>
      simp [previewLoop, Json.get, Json.subscript, hex, hnm, hen, pyIn, ih,
        previewLines, previewTypePrefix, isTemplateRule, ruleExpr, ruleName,
        ruleEnabled, ruleSeverity, String.append_assoc]
    | some e =>
      cases e with
      | str s =>
        simp [previewLoop, Json.get, Json.subscript, hex, hnm, hen, pyIn, ih,
          previewLines, previewTypePrefix, isTemplateRule, ruleExpr, ruleName,
          ruleEnabled, ruleSeverity, String.append_assoc]
      | null => simp [wfExprRule, hex] at hexpr
      | bool b => simp [wfExprRule, hex] at hexpr
      | num n => simp [wfExprRule, hex] at hexpr
      | arr xs => simp [wfExprRule, hex] at hexpr
      | obj gs => simp [wfExprRule, hex] at hexpr

theorem warnLoop_err : ∀ l : List Json,
    (∀ r ∈ l, ∃ fs, r = Json.obj fs) →
    (∃ r ∈ l, ∃ fs, r = Json.obj fs ∧ lookupField fs "enabled" = none) →
    ∃ k, (k = "name" ∨ k = "enabled") ∧ (warnLoop l).2 = some (.keyError k)
  | [], _, hw => by simp at hw
  | r :: rs, hobj, hw => by
    obtain ⟨fs, rfl⟩ := hobj r (List.mem_cons_self r rs)
    cases hnm : lookupField fs "name" with
    | none =>
      refine ⟨"name", Or.inl rfl, ?_⟩
      simp [warnLoop, Json.subscript, hnm]
    | some nm =>
      cases hen : lookupField fs "enabled" with
      | none =>
        refine ⟨"enabled", Or.inr rfl, ?_⟩
        simp [warnLoop, Json.subscript, hnm, hen]
      | some en =>
        have hw' : ∃ r ∈ rs, ∃ gs, r = Json.obj gs ∧ lookupField gs "enabled" = none := by
          obtain ⟨r0, hr0, gs, hgs, hlook⟩ := hw
          rcases List.mem_cons.mp hr0 with h0 | h0
          · exfalso
            rw [h0] at hgs
            cases hgs
            rw [hlook] at hen
            cases hen
          · exact ⟨r0, h0, gs, hgs, hlook⟩
        obtain ⟨k, hk, hk2⟩ :=
          warnLoop_err rs (fun x hx => hobj x (List.mem_cons_of_mem _ hx)) hw'
        refine ⟨k, hk, ?_⟩
        simp [warnLoop, Json.subscript, hnm, hen, hk2]

theorem processData_success
    (fs dfs pfs : List (String × Json)) (sv total : Json) (rlist : List Json)
    (hsucc : lookupField fs "success" = some sv) (hsv : sv.truthy = true)
    (hdata : lookupField fs "data" = some (.obj dfs))
    (hpag : lookupField dfs "pagination" = some (.obj pfs))
    (htot : lookupField pfs "total" = some total)
    (hrules : lookupField dfs "rules" = some (.arr rlist))
    (hwf : ∀ r ∈ rlist, wellFormedRule r = true) :
    processData (.obj fs) = (expectedReport total rlist, .exit 0) := by
  have htmpl : filterE templateTest rlist = .ok (rlist.filter isTemplateRule) :=
    filterE_ok _ _ rlist fun r hr =>
      templateTest_eq r (wfExpr_of_wellFormed r (hwf r hr))
  have hdis : filterE disabledTest rlist = .ok (rlist.filter isDisabledRule) :=
    filterE_ok _ _ rlist fun r hr => by
      obtain ⟨gs, hg⟩ := wellFormed_obj r (hwf r hr)
      rw [hg]
      exact disabledTest_eq gs
  have hwarn : warnLoop (rlist.filter isDisabledRule) =
      ((rlist.filter isDisabledRule).map warnLine, none) :=
    warnLoop_ok _ fun r hr => hwf r (List.mem_of_mem_filter hr)
  have hpv : previewLoop 1 (rlist.take 5) = (previewLines 1 (rlist.take 5), none) :=
    previewLoop_ok 1 _ fun r hr => hwf r (List.take_subset 5 rlist hr)
  by_cases hc : (rlist.filter isDisabledRule).length > 0
  · simp [processData, Json.get, Json.subscript, Json.toIter, Json.pyLen,
      Json.sliceIter5, hsucc, hsv, hdata, hpag, htot, hrules, htmpl, hdis,
      hwarn, hpv, hc, expectedReport, statsLines, warnBlock, Except.bind]
  · simp [processData, Json.get, Json.subscript, Json.toIter, Json.pyLen,
      Json.sliceIter5, hsucc, hsv, hdata, hpag, htot, hrules, htmpl, hdis,
      hwarn, hpv, hc, expectedReport, statsLines, warnBlock, Except.bind]

theorem run_success (token : String) (htok : ¬token = "")
    (status : Nat) (hstatus : ¬(400 ≤ status ∧ status < 600))
    (fs dfs pfs : List (String × Json)) (sv total : Json) (rlist : List Json)
    (hsucc : lookupField fs "success" = some sv) (hsv : sv.truthy = true)
    (hdata : lookupField fs "data" = some (.obj dfs))
    (hpag : lookupField dfs "pagination" = some (.obj pfs))
    (htot : lookupField pfs "total" = some total)
    (hrules : lookupField dfs "rules" = some (.arr rlist))
    (hwf : ∀ r ∈ rlist, wellFormedRule r = true) :
    run (some token) (.response status (.ok (.obj fs))) =
      ⟨preLines ++ expectedReport total rlist, 0, 1⟩ := by
  have hp := processData_success fs dfs pfs sv total rlist hsucc hsv hdata
    hpag htot hrules hwf
  simp [run, htok, hstatus, hp]

theorem previewLines_length : ∀ (i : Nat) (l : List Json),
    (previewLines i l).length = 2 * l.length
  | _, [] => rfl
  | i, r :: rs => by
    simp [previewLines, previewLines_length (i + 1) rs]
    ring

theorem mem_previewLines_type (r : Json) :
    ∀ (i : Nat) (l : List Json), r ∈ l →
      (previewTypePrefix r ++ (ruleSeverity r).pyStr) ∈ previewLines i l
  | i, x :: xs, h => by
    rcases List.mem_cons.mp h with rfl | h
    · simp [previewLines]
    · simp only [previewLines, List.mem_cons]
      exact Or.inr (Or.inr (mem_previewLines_type r (i + 1) xs h))

/-- C1: when `DEV_BEARER` is unset or empty, the run exits with code 1,
prints the configuration diagnostic, and issues no HTTP GET. -/
theorem C1_config_gate (env : Option String) (http : HttpResult)
    (h : env = none ∨ env = some "") :
    (run env http).exitCode = 1 ∧
      (run env http).output = [configErrorLine] ∧
      (run env http).networkCalls = 0 := by
  rcases h with rfl | rfl <;> simp [run]

theorem C1_config_gate_witness :
    (run none (.requestException "unused")).exitCode = 1 ∧
      (run none (.requestException "unused")).output = [configErrorLine] ∧
      (run none (.requestException "unused")).networkCalls = 0 :=
  C1_config_gate none (.requestException "unused") (Or.inl rfl)

/-- C2: a parsed response whose `success` field is `false` makes the run
print the `API returned success=false` diagnostic and exit with code 1 via
`sys.exit` (no unhandled exception: the output is exactly the banner plus
that one diagnostic line, with no `except`-clause line). -/
theorem C2_success_false_exits (token : String) (htok : ¬token = "")
    (status : Nat) (hstatus : ¬(400 ≤ status ∧ status < 600))
    (fs : List (String × Json))
    (hsucc : lookupField fs "success" = some (.bool false)) :
    run (some token) (.response status (.ok (.obj fs))) =
      ⟨preLines ++ ["ERROR: API returned success=false"], 1, 1⟩ := by
  simp [run, htok, hstatus, processData, Json.get, hsucc, Json.truthy]

theorem C2_success_false_exits_witness :
    run (some "token") (.response 200 (.ok (.obj [("success", .bool false)]))) =
      ⟨preLines ++ ["ERROR: API returned success=false"], 1, 1⟩ :=
  C2_success_false_exits "token" (by decide) 200 (by decide)
    [("success", .bool false)] rfl

/-- C9: a parsed response with no `success` field at all takes exactly the
`success=false` path: `data.get('success')` yields `None`, which is falsy.
The run prints the same diagnostic and exits with code 1. -/
theorem C9_absent_success (token : String) (htok : ¬token = "")
    (status : Nat) (hstatus : ¬(400 ≤ status ∧ status < 600))
    (fs : List (String × Json))
    (hsucc : lookupField fs "success" = none) :
    run (some token) (.response status (.ok (.obj fs))) =
      ⟨preLines ++ ["ERROR: API returned success=false"], 1, 1⟩ := by
  simp [run, htok, hstatus, processData, Json.get, hsucc, Json.truthy]

theorem C9_absent_success_witness :
    run (some "token") (.response 200 (.ok (.obj [("data", .obj [])]))) =
      ⟨preLines ++ ["ERROR: API returned success=false"], 1, 1⟩ :=
  C9_absent_success "token" (by decide) 200 (by decide)
    [("data", .obj [])] rfl

/-- A well-formed success payload, as carried by a hypothetical 304
response (e.g. a 304 Not Modified whose body still holds valid JSON). -/
def redirectPayload : Json :=
  .obj [("success", .bool true),
        ("data", .obj [("pagination", .obj [("total", .num 0)]),
                       ("rules", .arr [])])]

/-- C3 counterexample: 304 is not a 2xx status, yet `raise_for_status()`
only raises for 4xx/5xx, so a 304 response with a parseable success body
completes the run with exit code 0 and no transport diagnostic — the claim
"every non-2xx HTTP status exits with code 1" is false as stated. -/
theorem C3_non2xx_counterexample :
    (304 < 200 ∨ 300 ≤ 304) ∧
      (run (some "token") (.response 304 (.ok redirectPayload))).exitCode = 0 := by
  constructor
  · decide
  · rfl

/-- C3 (amended): for every `RequestException` from the GET itself
(connection refused, timeout, DNS failure, ...), for every 4xx/5xx HTTP
status (the statuses `raise_for_status()` raises on), and for every
response body that fails to parse as JSON, the run prints one diagnostic
line ending in the underlying cause and exits with code 1, having issued
exactly one network call (no retry). -/
theorem C3_transport_failure (token : String) (htok : ¬token = "")
    (http : HttpResult) (cause : String) (status : Nat)
    (h : http = .requestException cause ∨
         ((∃ b, http = .response status b) ∧ 400 ≤ status ∧ status < 600 ∧
            cause = httpErrorMsg status) ∨
         (http = .response status (.error cause) ∧ ¬(400 ≤ status ∧ status < 600))) :
    (run (some token) http).output =
        preLines ++ ["ERROR: Failed to fetch rules: " ++ cause] ∧
      (run (some token) http).exitCode = 1 ∧
      (run (some token) http).networkCalls = 1 := by
  rcases h with rfl | ⟨⟨b, rfl⟩, h1, h2, rfl⟩ | ⟨rfl, hns⟩
  · simp [run, htok]
  · simp [run, htok, h1, h2]
  · simp [run, htok, hns]

theorem C3_transport_failure_witness :
    (run (some "token") (.requestException "Connection refused")).output =
        preLines ++ ["ERROR: Failed to fetch rules: Connection refused"] ∧
      (run (some "token") (.requestException "Connection refused")).exitCode = 1 ∧
      (run (some "token") (.requestException "Connection refused")).networkCalls = 1 :=
  C3_transport_failure "token" (by decide) (.requestException "Connection refused")
    "Connection refused" 0 (Or.inl rfl)

/-- C4: a successful response of well-formed records with at least one
disabled rule still exits 0; the warning block names each disabled rule
with its enabled value, and the reported disabled count is the number of
disabled rules — the anomaly never changes the exit code. -/
theorem C4_disabled_nonfatal (token : String) (htok : ¬token = "")
    (status : Nat) (hstatus : ¬(400 ≤ status ∧ status < 600))
    (fs dfs pfs : List (String × Json)) (sv total : Json) (rlist : List Json)
    (hsucc : lookupField fs "success" = some sv) (hsv : sv.truthy = true)
    (hdata : lookupField fs "data" = some (.obj dfs))
    (hpag : lookupField dfs "pagination" = some (.obj pfs))
    (htot : lookupField pfs "total" = some total)
    (hrules : lookupField dfs "rules" = some (.arr rlist))
    (hwf : ∀ r ∈ rlist, wellFormedRule r = true)
    (hdis : 0 < (rlist.filter isDisabledRule).length) :
    (run (some token) (.response status (.ok (.obj fs)))).exitCode = 0 ∧
      "WARNING: Found disabled rules in enabled=true response!"
        ∈ (run (some token) (.response status (.ok (.obj fs)))).output ∧
      (∀ r ∈ rlist.filter isDisabledRule,
        warnLine r ∈ (run (some token) (.response status (.ok (.obj fs)))).output) ∧
      ("  Disabled rules: " ++ toString (rlist.filter isDisabledRule).length
          ++ " (should be 0)")
        ∈ (run (some token) (.response status (.ok (.obj fs)))).output := by
  have hr := run_success token htok status hstatus fs dfs pfs sv total rlist
    hsucc hsv hdata hpag htot hrules hwf
  rw [hr]
  refine ⟨rfl, ?_, ?_, ?_⟩
  · simp [expectedReport, warnBlock, hdis]
  · intro r hrm
    have h1 : warnLine r ∈ (rlist.filter isDisabledRule).map warnLine :=
      List.mem_map_of_mem warnLine hrm
    simp only [expectedReport, warnBlock, hdis, if_pos, List.mem_append,
      List.mem_cons]
    tauto
  · simp [expectedReport, statsLines]

/-- C6: on a successful response the whole output is the banner, the stats,
the warning block, then the preview of exactly the first `min 5 n` rules in
received order (two lines each), then the fixed tail — in particular 5
preview entries when 8 or more records arrived, and no reordering. -/
theorem C6_preview_bound (token : String) (htok : ¬token = "")
    (status : Nat) (hstatus : ¬(400 ≤ status ∧ status < 600))
    (fs dfs pfs : List (String × Json)) (sv total : Json) (rlist : List Json)
    (hsucc : lookupField fs "success" = some sv) (hsv : sv.truthy = true)
    (hdata : lookupField fs "data" = some (.obj dfs))
    (hpag : lookupField dfs "pagination" = some (.obj pfs))
    (htot : lookupField pfs "total" = some total)
    (hrules : lookupField dfs "rules" = some (.arr rlist))
    (hwf : ∀ r ∈ rlist, wellFormedRule r = true) :
    (run (some token) (.response status (.ok (.obj fs)))).output =
        preLines ++ statsLines total rlist ++ warnBlock rlist
          ++ ["First 5 rules:"] ++ previewLines 1 (rlist.take 5) ++ tailLines ∧
      (rlist.take 5).length = min 5 rlist.length ∧
      (previewLines 1 (rlist.take 5)).length = 2 * min 5 rlist.length := by
  have hr := run_success token htok status hstatus fs dfs pfs sv total rlist
    hsucc hsv hdata hpag htot hrules hwf
  refine ⟨?_, by simp, ?_⟩
  · rw [hr]
    simp [expectedReport]
  · rw [previewLines_length]
    simp

/-- C7: on a successful response the reported total is the payload's
`data.pagination.total` and the reported fetched count is the length of
`data.rules`. -/
theorem C7_total_and_fetched (token : String) (htok : ¬token = "")
    (status : Nat) (hstatus : ¬(400 ≤ status ∧ status < 600))
    (fs dfs pfs : List (String × Json)) (sv total : Json) (rlist : List Json)
    (hsucc : lookupField fs "success" = some sv) (hsv : sv.truthy = true)
    (hdata : lookupField fs "data" = some (.obj dfs))
    (hpag : lookupField dfs "pagination" = some (.obj pfs))
    (htot : lookupField pfs "total" = some total)
    (hrules : lookupField dfs "rules" = some (.arr rlist))
    (hwf : ∀ r ∈ rlist, wellFormedRule r = true) :
    ("✓ Total enabled rules: " ++ total.pyStr)
        ∈ (run (some token) (.response status (.ok (.obj fs)))).output ∧
      ("✓ Rules fetched: " ++ toString rlist.length)
        ∈ (run (some token) (.response status (.ok (.obj fs)))).output := by
  have hr := run_success token htok status hstatus fs dfs pfs sv total rlist
    hsucc hsv hdata hpag htot hrules hwf
  rw [hr]
  constructor <;> simp [expectedReport, statsLines]

/-- C5: a rule is classified "Template" exactly when its `expression`
contains the substring `${` — a record lacking `expression` is treated as
having the empty-string expression and is never a template rule — and the
reported template count is the number of rules so classified. -/
theorem C5_template_classification (token : String) (htok : ¬token = "")
    (status : Nat) (hstatus : ¬(400 ≤ status ∧ status < 600))
    (fs dfs pfs : List (String × Json)) (sv total : Json) (rlist : List Json)
    (hsucc : lookupField fs "success" = some sv) (hsv : sv.truthy = true)
    (hdata : lookupField fs "data" = some (.obj dfs))
    (hpag : lookupField dfs "pagination" = some (.obj pfs))
    (htot : lookupField pfs "total" = some total)
    (hrules : lookupField dfs "rules" = some (.arr rlist))
    (hwf : ∀ r ∈ rlist, wellFormedRule r = true) :
    ("  Template rules: " ++
        toString ((rlist.filter fun r => strContains (ruleExpr r) tmplNeedle).length))
      ∈ (run (some token) (.response status (.ok (.obj fs)))).output ∧
      (∀ r ∈ rlist.take 5,
        ("     Type: "
            ++ (if strContains (ruleExpr r) tmplNeedle then "Template" else "Executable")
            ++ " | Enabled: " ++ (ruleEnabled r).pyStr ++ " | Severity: "
            ++ (ruleSeverity r).pyStr)
          ∈ (run (some token) (.response status (.ok (.obj fs)))).output) ∧
      (∀ gs, lookupField gs "expression" = none →
        ruleExpr (Json.obj gs) = "" ∧ isTemplateRule (Json.obj gs) = false) := by
  have hr := run_success token htok status hstatus fs dfs pfs sv total rlist
    hsucc hsv hdata hpag htot hrules hwf
  rw [hr]
  have hfun : (fun r => strContains (ruleExpr r) tmplNeedle) = isTemplateRule := rfl
  refine ⟨?_, ?_, ?_⟩
  · rw [hfun]
    simp [expectedReport, statsLines]
  · intro r hrm
    have hmem := mem_previewLines_type r 1 (rlist.take 5) hrm
    have hline : previewTypePrefix r ++ (ruleSeverity r).pyStr =
        "     Type: "
          ++ (if strContains (ruleExpr r) tmplNeedle then "Template" else "Executable")
          ++ " | Enabled: " ++ (ruleEnabled r).pyStr ++ " | Severity: "
          ++ (ruleSeverity r).pyStr := by
      simp [previewTypePrefix, isTemplateRule, String.append_assoc]
    rw [← hline]
    simp only [expectedReport, List.mem_append]
    tauto
  · intro gs hgs
    refine ⟨by simp [ruleExpr, hgs], ?_⟩
    simp only [isTemplateRule, ruleExpr, hgs]
    decide

/-- C8: each previewed rule's severity line shows the record's `severity`
field when present and the literal string `N/A` when the field is absent. -/
theorem C8_severity_fallback (token : String) (htok : ¬token = "")
    (status : Nat) (hstatus : ¬(400 ≤ status ∧ status < 600))
    (fs dfs pfs : List (String × Json)) (sv total : Json) (rlist : List Json)
    (hsucc : lookupField fs "success" = some sv) (hsv : sv.truthy = true)
    (hdata : lookupField fs "data" = some (.obj dfs))
    (hpag : lookupField dfs "pagination" = some (.obj pfs))
    (htot : lookupField pfs "total" = some total)
    (hrules : lookupField dfs "rules" = some (.arr rlist))
    (hwf : ∀ r ∈ rlist, wellFormedRule r = true) :
    ∀ r ∈ rlist.take 5, ∀ gs, r = Json.obj gs →
      (previewTypePrefix r ++
          (match lookupField gs "severity" with
           | some v => v.pyStr
           | none => "N/A"))
        ∈ (run (some token) (.response status (.ok (.obj fs)))).output := by
  have hr := run_success token htok status hstatus fs dfs pfs sv total rlist
    hsucc hsv hdata hpag htot hrules hwf
  rw [hr]
  intro r hrm gs hgs
  have hsev : (match lookupField gs "severity" with
      | some v => v.pyStr
      | none => "N/A") = (ruleSeverity r).pyStr := by
    subst hgs
    cases h : lookupField gs "severity" <;> simp [ruleSeverity, h, Json.pyStr]
  rw [hsev]
  have hmem := mem_previewLines_type r 1 (rlist.take 5) hrm
  simp only [expectedReport, List.mem_append]
  tauto

/-- C10: in a successful response, a rule record lacking the `enabled`
field counts as disabled (`r.get('enabled')` is `None`, falsy), and the
warning block's direct subscripts (`r['name']`, `r['enabled']`) then raise
a `KeyError`, caught by `except Exception`, so the run exits with code 1
instead of finishing with a non-fatal warning: the disabled-anomaly path
is non-fatal only when every disabled rule carries both fields. -/
theorem C10_missing_enabled_fatal (token : String) (htok : ¬token = "")
    (status : Nat) (hstatus : ¬(400 ≤ status ∧ status < 600))
    (fs dfs pfs : List (String × Json)) (sv total : Json) (rlist : List Json)
    (hsucc : lookupField fs "success" = some sv) (hsv : sv.truthy = true)
    (hdata : lookupField fs "data" = some (.obj dfs))
    (hpag : lookupField dfs "pagination" = some (.obj pfs))
    (htot : lookupField pfs "total" = some total)
    (hrules : lookupField dfs "rules" = some (.arr rlist))
    (hobj : ∀ r ∈ rlist, ∃ gs, r = Json.obj gs)
    (hexpr : ∀ r ∈ rlist, wfExprRule r = true)
    (gs0 : List (String × Json)) (hr0 : Json.obj gs0 ∈ rlist)
    (hmiss : lookupField gs0 "enabled" = none) :
    isDisabledRule (Json.obj gs0) = true ∧
      Json.obj gs0 ∈ rlist.filter isDisabledRule ∧
      (run (some token) (.response status (.ok (.obj fs)))).exitCode = 1 ∧
      ∃ k, (k = "name" ∨ k = "enabled") ∧
        ("ERROR: " ++ (pyQuote ++ k ++ pyQuote))
          ∈ (run (some token) (.response status (.ok (.obj fs)))).output := by
  have hd0 : isDisabledRule (Json.obj gs0) = true := by
    simp [isDisabledRule, ruleEnabled, hmiss, Json.truthy]
  have hmemf : Json.obj gs0 ∈ rlist.filter isDisabledRule :=
    List.mem_filter.mpr ⟨hr0, hd0⟩
  have htmpl : filterE templateTest rlist = .ok (rlist.filter isTemplateRule) :=
    filterE_ok _ _ rlist fun r hr => templateTest_eq r (hexpr r hr)
  have hdis : filterE disabledTest rlist = .ok (rlist.filter isDisabledRule) :=
    filterE_ok _ _ rlist fun r hr => by
      obtain ⟨gs, hg⟩ := hobj r hr
      rw [hg]
      exact disabledTest_eq gs
  have hc : 0 < (rlist.filter isDisabledRule).length :=
    List.length_pos.mpr (List.ne_nil_of_mem hmemf)
  obtain ⟨k, hk, hwl⟩ := warnLoop_err (rlist.filter isDisabledRule)
    (fun r hr => hobj r (List.mem_of_mem_filter hr))
    ⟨Json.obj gs0, hmemf, gs0, rfl, hmiss⟩
  have hpd : processData (.obj fs) =
      (statsLines total rlist ++
        ("WARNING: Found disabled rules in enabled=true response!"
          :: (warnLoop (rlist.filter isDisabledRule)).1),
       .exc (.keyError k)) := by
    simp [processData, Json.get, Json.subscript, Json.toIter, Json.pyLen,
      hsucc, hsv, hdata, hpag, htot, hrules, htmpl, hdis, hwl, hc,
      Except.bind, statsLines]
  have hrun : run (some token) (.response status (.ok (.obj fs))) =
      ⟨preLines ++ (statsLines total rlist ++
          ("WARNING: Found disabled rules in enabled=true response!"
            :: (warnLoop (rlist.filter isDisabledRule)).1))
        ++ [exceptionLine (.keyError k)], 1, 1⟩ := by
    simp [run, htok, hstatus, hpd]
  refine ⟨hd0, hmemf, ?_, k, hk, ?_⟩
  · rw [hrun]
  · rw [hrun]
    simp [exceptionLine, PyError.pyStr, List.mem_append]

/-! Concrete witness data. -/

/-- A well-formed template rule with a severity. -/
def ruleA : Json :=
  .obj [("name", .str "Cost Threshold"),
        ("expression", .str "cost > $\x7bthreshold\x7d"),
        ("enabled", .bool true), ("severity", .str "high")]

/-- A well-formed executable rule, disabled, with no severity. -/
def ruleB : Json :=
  .obj [("name", .str "Range Check"),
        ("expression", .str "cost > 100"),
        ("enabled", .bool false)]

/-- A rule record with no `enabled` field at all. -/
def ruleNoEnabled : Json :=
  .obj [("name", .str "Broken Rule"),
        ("expression", .str "x > 1")]

/-- An all-enabled executable rule, parameterised by name. -/
def mkRule (nm : String) : Json :=
  .obj [("name", .str nm), ("expression", .str "cost > 100"),
        ("enabled", .bool true), ("severity", .str "medium")]

/-- Payload fields of a success response. -/
def mkPayload (total : Int) (rules : List Json) : List (String × Json) :=
  [("success", .bool true),
   ("data", .obj [("pagination", .obj [("total", .num total)]),
                  ("rules", .arr rules)])]

def eightRules : List Json :=
  [mkRule "r1", mkRule "r2", mkRule "r3", mkRule "r4",
   mkRule "r5", mkRule "r6", mkRule "r7", mkRule "r8"]

theorem C4_disabled_nonfatal_witness :
    (run (some "t") (.response 200 (.ok (.obj (mkPayload 2 [ruleA, ruleB]))))).exitCode = 0 ∧
      "WARNING: Found disabled rules in enabled=true response!"
        ∈ (run (some "t") (.response 200 (.ok (.obj (mkPayload 2 [ruleA, ruleB]))))).output ∧
      warnLine ruleB
        ∈ (run (some "t") (.response 200 (.ok (.obj (mkPayload 2 [ruleA, ruleB]))))).output ∧
      ("  Disabled rules: " ++ toString ([ruleA, ruleB].filter isDisabledRule).length
          ++ " (should be 0)")
        ∈ (run (some "t") (.response 200 (.ok (.obj (mkPayload 2 [ruleA, ruleB]))))).output :=
  have h := C4_disabled_nonfatal "t" (by decide) 200 (by decide)
    (mkPayload 2 [ruleA, ruleB]) _ _ (.bool true) (.num 2) [ruleA, ruleB]
    rfl rfl rfl rfl rfl rfl (by decide) (by decide)
  ⟨h.1, h.2.1,
    h.2.2.1 ruleB
      (List.mem_filter.mpr ⟨List.mem_cons_of_mem _ (List.mem_cons_self _ _), by decide⟩),
    h.2.2.2⟩

theorem C5_template_classification_witness :
    ("  Template rules: " ++
        toString (([ruleA, ruleB].filter fun r =>
          strContains (ruleExpr r) tmplNeedle).length))
      ∈ (run (some "t") (.response 200 (.ok (.obj (mkPayload 2 [ruleA, ruleB]))))).output ∧
      ("     Type: "
          ++ (if strContains (ruleExpr ruleA) tmplNeedle then "Template" else "Executable")
          ++ " | Enabled: " ++ (ruleEnabled ruleA).pyStr ++ " | Severity: "
          ++ (ruleSeverity ruleA).pyStr)
        ∈ (run (some "t") (.response 200 (.ok (.obj (mkPayload 2 [ruleA, ruleB]))))).output ∧
      ruleExpr (Json.obj [("name", Json.str "NoExpr"), ("enabled", Json.bool true)]) = "" ∧
      isTemplateRule (Json.obj [("name", Json.str "NoExpr"), ("enabled", Json.bool true)]) = false :=
  have h := C5_template_classification "t" (by decide) 200 (by decide)
    (mkPayload 2 [ruleA, ruleB]) _ _ (.bool true) (.num 2) [ruleA, ruleB]
    rfl rfl rfl rfl rfl rfl (by decide)
  ⟨h.1, h.2.1 ruleA (List.mem_cons_self _ _),
    (h.2.2 [("name", Json.str "NoExpr"), ("enabled", Json.bool true)] rfl).1,
    (h.2.2 [("name", Json.str "NoExpr"), ("enabled", Json.bool true)] rfl).2⟩

theorem C6_preview_bound_witness :
    (run (some "t") (.response 200 (.ok (.obj (mkPayload 42 eightRules))))).output =
        preLines ++ statsLines (.num 42) eightRules ++ warnBlock eightRules
          ++ ["First 5 rules:"] ++ previewLines 1 (eightRules.take 5) ++ tailLines ∧
      (eightRules.take 5).length = min 5 eightRules.length ∧
      (previewLines 1 (eightRules.take 5)).length = 2 * min 5 eightRules.length :=
  C6_preview_bound "t" (by decide) 200 (by decide)
    (mkPayload 42 eightRules) _ _ (.bool true) (.num 42) eightRules
    rfl rfl rfl rfl rfl rfl (by decide)

theorem C7_total_and_fetched_witness :
    ("✓ Total enabled rules: " ++ (Json.num 42).pyStr)
        ∈ (run (some "t")
            (.response 200 (.ok (.obj (mkPayload 42 [ruleA, ruleB, mkRule "r3"]))))).output ∧
      ("✓ Rules fetched: " ++ toString ([ruleA, ruleB, mkRule "r3"].length))
        ∈ (run (some "t")
            (.response 200 (.ok (.obj (mkPayload 42 [ruleA, ruleB, mkRule "r3"]))))).output :=
  C7_total_and_fetched "t" (by decide) 200 (by decide)
    (mkPayload 42 [ruleA, ruleB, mkRule "r3"]) _ _ (.bool true) (.num 42)
    [ruleA, ruleB, mkRule "r3"] rfl rfl rfl rfl rfl rfl (by decide)

theorem C8_severity_fallback_witness :
    (previewTypePrefix ruleB ++
        (match lookupField [("name", Json.str "Range Check"),
            ("expression", Json.str "cost > 100"),
            ("enabled", Json.bool false)] "severity" with
         | some v => v.pyStr
         | none => "N/A"))
      ∈ (run (some "t") (.response 200 (.ok (.obj (mkPayload 2 [ruleA, ruleB]))))).output :=
  C8_severity_fallback "t" (by decide) 200 (by decide)
    (mkPayload 2 [ruleA, ruleB]) _ _ (.bool true) (.num 2) [ruleA, ruleB]
    rfl rfl rfl rfl rfl rfl (by decide)
    ruleB (List.mem_cons_of_mem _ (List.mem_cons_self _ _))
    [("name", Json.str "Range Check"), ("expression", Json.str "cost > 100"),
     ("enabled", Json.bool false)] rfl

theorem C10_missing_enabled_fatal_witness :
    isDisabledRule (Json.obj [("name", Json.str "Broken Rule"),
        ("expression", Json.str "x > 1")]) = true ∧
      Json.obj [("name", Json.str "Broken Rule"), ("expression", Json.str "x > 1")]
        ∈ [ruleA, ruleNoEnabled].filter isDisabledRule ∧
      (run (some "t")
          (.response 200 (.ok (.obj (mkPayload 2 [ruleA, ruleNoEnabled]))))).exitCode = 1 ∧
      ∃ k, (k = "name" ∨ k = "enabled") ∧
        ("ERROR: " ++ (pyQuote ++ k ++ pyQuote))
          ∈ (run (some "t")
              (.response 200 (.ok (.obj (mkPayload 2 [ruleA, ruleNoEnabled]))))).output :=
  C10_missing_enabled_fatal "t" (by decide) 200 (by decide)
    (mkPayload 2 [ruleA, ruleNoEnabled]) _ _ (.bool true) (.num 2)
    [ruleA, ruleNoEnabled] rfl rfl rfl rfl rfl rfl
    (by
      intro r hr
      rcases List.mem_cons.mp hr with rfl | hr
      · exact ⟨_, rfl⟩
      rcases List.mem_cons.mp hr with rfl | hr
      · exact ⟨_, rfl⟩
      cases hr)
    (by decide)
    [("name", Json.str "Broken Rule"), ("expression", Json.str "x > 1")]
    (List.mem_cons_of_mem _ (List.mem_cons_self _ _)) rfl
